import Mathlib

/-!
Verification of the agentic-workflow-patterns repository against its
specification.  The Python sources are shallowly embedded: the external
inference service (ollama / OpenAI-compatible endpoint) is modelled as an
oracle supplied by the caller, model-level floats are modelled as exact
rationals, pydantic models become structures, and pydantic JSON validation
becomes an explicit parse function over a JSON value type.  Fallible calls
return `Except PyError`.  Orchestrators additionally return the list of
inference / handler calls they issued, so that short-circuit and
call-count properties can be stated.
-/

namespace AgenticWorkflows

/-- Errors surfaced by the embedded code: the three hard inference-service
errors named by the spec, plus Python's AttributeError (raised when a
nonexistent attribute is accessed, carrying the attribute name). -/
inductive PyError where
  | SchemaViolation
  | ServiceUnavailable
  | Timeout
  | attributeError (name : String)
deriving DecidableEq, Repr

/-- The confidence threshold.  Every source file hardcodes the literal
`0.7` in its gate (1-prompt-chaining.py line 138, 2-… line 156,
3-routing.py line 203, 4-parallelization.py line 106). -/
def threshold : ℚ := 7/10

/-- JSON values, as returned in `response.message.content` by the ollama
`chat` call and fed to pydantic's `model_validate_json`.  Numbers are
modelled as exact rationals. -/
inductive Json where
  | null
  | bool (b : Bool)
  | num (q : ℚ)
  | str (s : String)
  | arr (elems : List Json)
  | obj (fields : List (String × Json))

/-- Field lookup in a JSON object field list (first match wins). -/
def lookupField : List (String × Json) → String → Option Json
  | [], _ => none
  | (k, v) :: rest, name => if k = name then some v else lookupField rest name

/-- Extract the elements of a JSON array of strings; fails if any element
is not a string. -/
def stringElems : List Json → Option (List String)
  | [] => some []
  | .str s :: rest =>
    match stringElems rest with
    | some ss => some (s :: ss)
    | none => none
  | _ => none

namespace Chaining1

/-! Embedding of src/1-prompt-chaining.py. -/

/-- pydantic model `EventValidation` (lines 17-25).  `confidence_score` is
declared as a plain `float`; the range "between 0 and 1" appears only in
the field description used to steer the model. -/
structure EventValidation where
  description : String
  is_calender_event : Bool
  confidence_score : ℚ
deriving DecidableEq, Repr

/-- pydantic model `EventDetails` (lines 27-34). -/
structure EventDetails where
  name : String
  description : String
  date : String
  duration_minutes : ℤ
  participants : List String
deriving DecidableEq, Repr

/-- pydantic model `EventConfirmation` (lines 36-41). -/
structure EventConfirmation where
  confirmation_message : String
deriving DecidableEq, Repr

/-- pydantic `EventValidation.model_validate_json` (line 69): each field
must be present with the declared type; no numeric-range constraint is
declared on `confidence_score`, so any number is accepted. -/
def EventValidation.model_validate_json (j : Json) : Except PyError EventValidation :=
  match j with
  | .obj fields =>
    match lookupField fields "description", lookupField fields "is_calender_event",
        lookupField fields "confidence_score" with
    | some (.str d), some (.bool b), some (.num q) => .ok ⟨d, b, q⟩
    | _, _, _ => .error .SchemaViolation
  | _ => .error .SchemaViolation

/-- pydantic `EventDetails.model_validate_json` (line 98).
`duration_minutes : int` accepts only integer-valued numbers. -/
def EventDetails.model_validate_json (j : Json) : Except PyError EventDetails :=
  match j with
  | .obj fields =>
    match lookupField fields "name", lookupField fields "description",
        lookupField fields "date", lookupField fields "duration_minutes",
        lookupField fields "participants" with
    | some (.str n), some (.str d), some (.str dt), some (.num q), some (.arr ps) =>
      if q.den = 1 then
        match stringElems ps with
        | some ss => .ok ⟨n, d, dt, q.num, ss⟩
        | none => .error .SchemaViolation
      else .error .SchemaViolation
    | _, _, _, _, _ => .error .SchemaViolation
  | _ => .error .SchemaViolation

/-- pydantic `EventConfirmation.model_validate_json` (line 123). -/
def EventConfirmation.model_validate_json (j : Json) : Except PyError EventConfirmation :=
  match j with
  | .obj fields =>
    match lookupField fields "confirmation_message" with
    | some (.str m) => .ok ⟨m⟩
    | _ => .error .SchemaViolation
  | _ => .error .SchemaViolation

/-- The inference-service oracle: one field per `chat` call site, mapping
the user-content argument of the call to the raw JSON response content, or
to a transport error.  (`generate_confirmation` sends
`str(event_details.model_dump())`, so its oracle is indexed by the
details value.) -/
structure ChainService where
  chatValidate : String → Except PyError Json
  chatExtract : String → Except PyError Json
  chatConfirm : EventDetails → Except PyError Json

/-- Function `validate_event` (lines 45-73): one chat call, then pydantic
validation of the response content. -/
def validate_event (svc : ChainService) (user_input : String) :
    Except PyError EventValidation :=
  match svc.chatValidate user_input with
  | .error e => .error e
  | .ok content => EventValidation.model_validate_json content

/-- Function `extract_event_details` (lines 75-99). -/
def extract_event_details (svc : ChainService) (description : String) :
    Except PyError EventDetails :=
  match svc.chatExtract description with
  | .error e => .error e
  | .ok content => EventDetails.model_validate_json content

/-- Function `generate_confirmation` (lines 101-125). -/
def generate_confirmation (svc : ChainService) (event_details : EventDetails) :
    Except PyError EventConfirmation :=
  match svc.chatConfirm event_details with
  | .error e => .error e
  | .ok content => EventConfirmation.model_validate_json content

/-- The gate condition of line 138:
`(not validation.is_calender_event) or (validation.confidence_score < 0.7)`.
True exactly when the gate REJECTS the request. -/
def gate_rejects (v : EventValidation) : Bool :=
  (!v.is_calender_event) || decide (v.confidence_score < threshold)

/-- The gate as a pass predicate (the spec's Gate/Confidence Check
decision): negation of the rejection condition. -/
def gate_passes (v : EventValidation) : Bool :=
  !gate_rejects v

/-- One issued inference call of the chain, with the argument it was
issued with: `validate_event(user_input)` at line 135,
`extract_event_details(description=user_input)` at line 147,
`generate_confirmation(event_details)` at line 150. -/
inductive ChainCall where
  | validating (input : String)
  | extracting (input : String)
  | confirming (details : EventDetails)
deriving DecidableEq, Repr

/-- Function `proces_calender_request` (lines 129-153), additionally
returning the list of inference calls it issued in order.  An uncaught
error inside a stage aborts the chain at that point (Python exception
propagation). -/
def proces_calender_request (svc : ChainService) (user_input : String) :
    Except PyError (Option EventConfirmation) × List ChainCall :=
  match validate_event svc user_input with
  | .error e => (.error e, [.validating user_input])
  | .ok validation =>
    if gate_rejects validation then
      (.ok none, [.validating user_input])
    else
      match extract_event_details svc user_input with
      | .error e => (.error e, [.validating user_input, .extracting user_input])
      | .ok event_details =>
        match generate_confirmation svc event_details with
        | .error e =>
          (.error e,
            [.validating user_input, .extracting user_input, .confirming event_details])
        | .ok confirmation =>
          (.ok (some confirmation),
            [.validating user_input, .extracting user_input, .confirming event_details])

end Chaining1

namespace Chaining2

/-! Embedding of src/2-prompt-chaining-openai-compaitable.py.  This file
uses `client.beta.chat.completions.parse(..., response_format=Model)` and
reads `response.choices[0].message.parsed`: schema validation happens
inside the client library, so each inference call is modelled as directly
yielding the validated model value or a `PyError`. -/

/-- pydantic model `EventValidation` (lines 25-33). -/
structure EventValidation where
  is_calendar_event : Bool
  confidence_score : ℚ
deriving DecidableEq, Repr

/-- pydantic model `EventDetails` (lines 35-49).  The `datetime` field is
modelled by its string rendering. -/
structure EventDetails where
  name : String
  date : String
  duration_minutes : ℤ
  participants : List String
deriving DecidableEq, Repr

/-- pydantic model `EventConfirmation` (lines 51-56). -/
structure EventConfirmation where
  confirmation_message : String
deriving DecidableEq, Repr

/-- The inference-service oracle: one field per `parse` call site; each
returns the parsed model value or fails.  `generate_confirmation` sends
`str(event_details.model_dump())`, so its oracle is indexed by the
details value. -/
structure ChainService where
  parseValidate : String → Except PyError EventValidation
  parseExtract : String → Except PyError EventDetails
  parseConfirm : EventDetails → Except PyError EventConfirmation

/-- Function `validate_event` (lines 60-86): one parse call on the user
input, returning `response.choices[0].message.parsed`. -/
def validate_event (svc : ChainService) (user_input : String) :
    Except PyError EventValidation :=
  svc.parseValidate user_input

/-- Function `extract_event` (lines 88-118). -/
def extract_event (svc : ChainService) (user_input : String) :
    Except PyError EventDetails :=
  svc.parseExtract user_input

/-- Function `generate_confirmation` (lines 120-141). -/
def generate_confirmation (svc : ChainService) (event_details : EventDetails) :
    Except PyError EventConfirmation :=
  svc.parseConfirm event_details

/-- The gate condition of lines 154-157:
`not validation.is_calendar_event or validation.confidence_score < 0.7`.
True exactly when the gate REJECTS the request. -/
def gate_rejects (v : EventValidation) : Bool :=
  (!v.is_calendar_event) || decide (v.confidence_score < threshold)

/-- The gate as a pass predicate: negation of the rejection condition of
lines 154-157. -/
def gate_passes (v : EventValidation) : Bool :=
  !gate_rejects v

/-- One issued inference call of the chain, with the argument it was
issued with: `validate_event(user_input)` at line 151,
`extract_event(user_input=user_input)` at line 166,
`generate_confirmation(event_details)` at line 169. -/
inductive ChainCall where
  | validating (input : String)
  | extracting (input : String)
  | confirming (details : EventDetails)
deriving DecidableEq, Repr

/-- Function `process_calendar_request` (lines 145-172), additionally
returning the list of inference calls it issued in order. -/
def process_calendar_request (svc : ChainService) (user_input : String) :
    Except PyError (Option EventConfirmation) × List ChainCall :=
  match validate_event svc user_input with
  | .error e => (.error e, [.validating user_input])
  | .ok validation =>
    if gate_rejects validation then
      (.ok none, [.validating user_input])
    else
      match extract_event svc user_input with
      | .error e => (.error e, [.validating user_input, .extracting user_input])
      | .ok event_details =>
        match generate_confirmation svc event_details with
        | .error e =>
          (.error e,
            [.validating user_input, .extracting user_input, .confirming event_details])
        | .ok confirmation =>
          (.ok (some confirmation),
            [.validating user_input, .extracting user_input, .confirming event_details])

end Chaining2

namespace Routing

/-! Embedding of src/3-routing.py. -/

/-- The `Literal['light_config', 'door_config', 'entertainment_config',
'other']` of lines 27-30: a closed enumeration of request categories. -/
inductive RequestType where
  | light_config
  | door_config
  | entertainment_config
  | other
deriving DecidableEq, Repr

/-- The string spelling of each category literal. -/
def RequestType.str : RequestType → String
  | .light_config => "light_config"
  | .door_config => "door_config"
  | .entertainment_config => "entertainment_config"
  | .other => "other"

/-- pydantic model `AssistantRequestType` (lines 24-38).
`confidence_score` is declared as a plain `float`; the range "between 0
and 1" appears only in the field description used to steer the model. -/
structure AssistantRequestType where
  request_type : RequestType
  confidence_score : ℚ
  description : String
deriving DecidableEq, Repr

/-- The schema validation the client performs for
`response_format=AssistantRequestType`: `request_type` must be one of the
four literals (enum membership is enforced), `confidence_score` must be a
number (no range constraint is declared), `description` a string. -/
def AssistantRequestType.model_validate_json (j : Json) :
    Except PyError AssistantRequestType :=
  match j with
  | .obj fields =>
    match lookupField fields "request_type", lookupField fields "confidence_score",
        lookupField fields "description" with
    | some (.str rt), some (.num q), some (.str d) =>
      if rt = "light_config" then .ok ⟨.light_config, q, d⟩
      else if rt = "door_config" then .ok ⟨.door_config, q, d⟩
      else if rt = "entertainment_config" then .ok ⟨.entertainment_config, q, d⟩
      else if rt = "other" then .ok ⟨.other, q, d⟩
      else .error .SchemaViolation
    | _, _, _ => .error .SchemaViolation
  | _ => .error .SchemaViolation

/-- The `Literal['warm', 'cool']` of lines 46-48. -/
inductive LightType where
  | warm
  | cool
deriving DecidableEq, Repr

/-- String spelling of a light type literal (as interpolated at line 134). -/
def LightType.str : LightType → String
  | .warm => "warm"
  | .cool => "cool"

/-- pydantic model `LightConfigDetails` (lines 40-48). -/
structure LightConfigDetails where
  place : String
  light_type : LightType
deriving DecidableEq, Repr

/-- The `Literal['lock', 'unlock']` of lines 56-58. -/
inductive DoorAction where
  | lock
  | unlock
deriving DecidableEq, Repr

/-- String spelling of a door action literal (as interpolated at line 163). -/
def DoorAction.str : DoorAction → String
  | .lock => "lock"
  | .unlock => "unlock"

/-- pydantic model `DoorConfigDetails` (lines 50-58). -/
structure DoorConfigDetails where
  place : String
  action : DoorAction
deriving DecidableEq, Repr

/-- The `Literal['play', 'stop', 'pause']` of lines 63-65. -/
inductive EntAction where
  | play
  | stop
  | pause
deriving DecidableEq, Repr

/-- String spelling of an entertainment action literal (line 192). -/
def EntAction.str : EntAction → String
  | .play => "play"
  | .stop => "stop"
  | .pause => "pause"

/-- pydantic model `EntertainmentConfigDetails` (lines 60-68). -/
structure EntertainmentConfigDetails where
  action : EntAction
  genre : Option String
deriving DecidableEq, Repr

/-- pydantic model `AssistantResponse` (lines 70-78): the uniform final
response shape (status + message). -/
structure AssistantResponse where
  status : String
  message : String
deriving DecidableEq, Repr

/-- The inference-service oracle: one field per `parse` call site (the
router classification call and the three handler extraction calls); each
returns the parsed model value or fails. -/
structure RouterService where
  parseRoute : String → Except PyError AssistantRequestType
  parseLight : String → Except PyError LightConfigDetails
  parseDoor : String → Except PyError DoorConfigDetails
  parseEnt : String → Except PyError EntertainmentConfigDetails

/-- Function `route_agent_request` (lines 82-106): one classification
parse call on the user input. -/
def route_agent_request (svc : RouterService) (user_input : String) :
    Except PyError AssistantRequestType :=
  svc.parseRoute user_input

/-- The f-string of line 134. -/
def lightMessage (result : LightConfigDetails) : String :=
  "Light configuration change on " ++ result.place ++ " to " ++ result.light_type.str

/-- Function `handle_light_config` (lines 108-135): one parse call against
`LightConfigDetails`, then an `AssistantResponse` is constructed and
returned (the Python annotation says `LightConfigDetails`, but the body
returns `AssistantResponse`, which unannotated Python happily does). -/
def handle_light_config (svc : RouterService) (description : String) :
    Except PyError AssistantResponse :=
  match svc.parseLight description with
  | .error e => .error e
  | .ok result => .ok ⟨"success", lightMessage result⟩

/-- The f-string of line 163. -/
def doorMessage (result : DoorConfigDetails) : String :=
  "Door configuration change on " ++ result.place ++ " to " ++ result.action.str

/-- Function `handle_door_config` (lines 137-164). -/
def handle_door_config (svc : RouterService) (description : String) :
    Except PyError AssistantResponse :=
  match svc.parseDoor description with
  | .error e => .error e
  | .ok result => .ok ⟨"success", doorMessage result⟩

/-- The f-string of line 192: `f'... to {result.action} {f'{result.genre}'
if result.genre else ""}'` — the genre part is the genre string when it is
truthy (present and nonempty), and empty otherwise. -/
def entMessage (result : EntertainmentConfigDetails) : String :=
  "Entertainment configuration change to " ++ result.action.str ++ " " ++
    (match result.genre with
      | some g => g
      | none => "")

/-- Function `handle_entertainment_config` (lines 166-193). -/
def handle_entertainment_config (svc : RouterService) (description : String) :
    Except PyError AssistantResponse :=
  match svc.parseEnt description with
  | .error e => .error e
  | .ok result => .ok ⟨"success", entMessage result⟩

/-- The confidence check of line 203:
`route_result.confidence_score < 0.7`.  True exactly when the router
rejects the request for low confidence. -/
def confidence_too_low (route_result : AssistantRequestType) : Bool :=
  decide (route_result.confidence_score < threshold)

/-- The router's confidence gate as a pass predicate: negation of the
rejection condition of line 203 (this gate has no boolean flag). -/
def gate_passes (route_result : AssistantRequestType) : Bool :=
  !confidence_too_low route_result

/-- One issued handler invocation, with the description it received. -/
inductive HandlerCall where
  | light (description : String)
  | door (description : String)
  | entertainment (description : String)
deriving DecidableEq, Repr

/-- Function `process_assistant_request` (lines 195-216), additionally
returning the list of handler invocations it issued.  The final `else`
branch (lines 214-216) logs "Request type is not supported" and returns
`None`; no exception is raised there. -/
def process_assistant_request (svc : RouterService) (user_input : String) :
    Except PyError (Option AssistantResponse) × List HandlerCall :=
  match route_agent_request svc user_input with
  | .error e => (.error e, [])
  | .ok route_result =>
    if confidence_too_low route_result then
      (.ok none, [])
    else
      match route_result.request_type with
      | .light_config =>
        (match handle_light_config svc route_result.description with
          | .error e => .error e
          | .ok r => .ok (some r),
         [.light route_result.description])
      | .door_config =>
        (match handle_door_config svc route_result.description with
          | .error e => .error e
          | .ok r => .ok (some r),
         [.door route_result.description])
      | .entertainment_config =>
        (match handle_entertainment_config svc route_result.description with
          | .error e => .error e
          | .ok r => .ok (some r),
         [.entertainment route_result.description])
      | .other => (.ok none, [])

end Routing

namespace Parallelization

/-! Embedding of src/4-parallelization.py. -/

/-- pydantic model `AssistantRequestValidation` (lines 27-35). -/
structure AssistantRequestValidation where
  is_assistant_request : Bool
  confidence_score : ℚ
deriving DecidableEq, Repr

/-- pydantic model `SecurityCheck` (lines 37-45). -/
structure SecurityCheck where
  is_safe : Bool
  risk_flags : List String
deriving DecidableEq, Repr

/-- The `response.choices[0].message` object of a successful
`client.beta.chat.completions.parse` call: its parsed payload is held in
the attribute named "parsed". -/
structure ParsedMessage (α : Type) where
  parsed : α
deriving DecidableEq, Repr

/-- Python attribute access on a parsed message: the attribute "parsed"
yields the payload; accessing any other name (in particular the
misspelling "parserd" at line 71) raises `AttributeError`. -/
def ParsedMessage.getattr (m : ParsedMessage α) (name : String) : Except PyError α :=
  if name = "parsed" then .ok m.parsed else .error (.attributeError name)

/-- The inference-service oracle: one field per `parse` call site; on
success each yields the response message object (whose `parsed` attribute
holds the validated model value). -/
structure ParallelService where
  assistantCheck : String → Except PyError (ParsedMessage AssistantRequestValidation)
  securityCheck : String → Except PyError (ParsedMessage SecurityCheck)

/-- Function `validate_assistant_request` (lines 49-71): one parse call,
then line 71 returns `response.choices[0].message.parserd` — note the
misspelt attribute name. -/
def validate_assistant_request (svc : ParallelService) (user_input : String) :
    Except PyError AssistantRequestValidation :=
  match svc.assistantCheck user_input with
  | .error e => .error e
  | .ok msg => msg.getattr "parserd"

/-- Function `check_security` (lines 73-93): one parse call, then line 93
returns `response.choices[0].message.parsed`. -/
def check_security (svc : ParallelService) (user_input : String) :
    Except PyError SecurityCheck :=
  match svc.securityCheck user_input with
  | .error e => .error e
  | .ok msg => msg.getattr "parsed"

/-- `asyncio.gather` over two awaitables (line 99), with
`return_exceptions` left at its default: if either task raises, the
exception propagates to the awaiting caller and the sibling result is
discarded; otherwise both results are returned. -/
def gatherPair (x : Except PyError α) (y : Except PyError β) :
    Except PyError (α × β) :=
  match x, y with
  | .error e, _ => .error e
  | .ok _, .error e => .error e
  | .ok a, .ok b => .ok (a, b)

/-- The combined condition of lines 104-108:
`is_assistant_request and confidence_score > 0.7 and is_safe`
(note the STRICT `>` against the threshold). -/
def is_valid (a : AssistantRequestValidation) (s : SecurityCheck) : Bool :=
  a.is_assistant_request && decide (a.confidence_score > threshold) && s.is_safe

/-- Function `validate_request` (lines 97-119): gather the two checks,
combine with `is_valid`, log on failure, and return the boolean.  The
risk flags are written only to the warning log (lines 115-116); the
returned value is the bare boolean. -/
def validate_request (svc : ParallelService) (user_input : String) :
    Except PyError Bool :=
  match gatherPair (validate_assistant_request svc user_input)
      (check_security svc user_input) with
  | .error e => .error e
  | .ok (assistant_request_validation, security_check) =>
    .ok (is_valid assistant_request_validation security_check)

end Parallelization

/-! Concrete inference-service oracles used to exercise the embedded
orchestrators on specific responses. -/

/-- A JSON response for the validation stage of 1-prompt-chaining.py with
the given field values. -/
def validationJson (d : String) (b : Bool) (q : ℚ) : Json :=
  .obj [("description", .str d), ("is_calender_event", .bool b),
    ("confidence_score", .num q)]

/-- A fixed JSON response for the extraction stage of
1-prompt-chaining.py. -/
def detailsJson : Json :=
  .obj [("name", .str "sync"), ("description", .str "weekly sync"),
    ("date", .str "2026-10-14T14:00"), ("duration_minutes", .num 60),
    ("participants", .arr [.str "Alice", .str "Bob"])]

/-- The `EventDetails` value that `detailsJson` validates to. -/
def sampleDetails : Chaining1.EventDetails :=
  ⟨"sync", "weekly sync", "2026-10-14T14:00", 60, ["Alice", "Bob"]⟩

/-- A fixed JSON response for the confirmation stage of
1-prompt-chaining.py. -/
def confirmationJson : Json :=
  .obj [("confirmation_message", .str "Your event is booked")]

/-- A chain service whose validation response carries a description
("VALIDATION OUTPUT") different from any user input, a true flag and
confidence 9/10, and whose later stages succeed with the fixed
responses. -/
def mismatchSvc : Chaining1.ChainService where
  chatValidate := fun _ => .ok (validationJson "VALIDATION OUTPUT" true (9/10))
  chatExtract := fun _ => .ok detailsJson
  chatConfirm := fun _ => .ok confirmationJson

/-- A chain service whose validation stage reports the input is not a
calendar event; its later stages would fail if they were ever called. -/
def notEventSvc : Chaining1.ChainService where
  chatValidate := fun _ => .ok (validationJson "poem request" false (9/10))
  chatExtract := fun _ => .error .ServiceUnavailable
  chatConfirm := fun _ => .error .ServiceUnavailable

/-- A Chaining2 service whose validation stage reports the input is not a
calendar event. -/
def notEventSvc2 : Chaining2.ChainService where
  parseValidate := fun _ => .ok ⟨false, 9/10⟩
  parseExtract := fun _ => .error .ServiceUnavailable
  parseConfirm := fun _ => .error .ServiceUnavailable

/-- A chain service whose validation call fails with
`ServiceUnavailable`. -/
def failingChainSvc : Chaining1.ChainService where
  chatValidate := fun _ => .error .ServiceUnavailable
  chatExtract := fun _ => .ok detailsJson
  chatConfirm := fun _ => .ok confirmationJson

/-- A router service that classifies every input into the fallback
category "other" with confidence 9/10; its handler-stage calls would fail
if they were ever issued. -/
def otherSvc : Routing.RouterService where
  parseRoute := fun _ => .ok ⟨.other, 9/10, "do something odd"⟩
  parseLight := fun _ => .error .ServiceUnavailable
  parseDoor := fun _ => .error .ServiceUnavailable
  parseEnt := fun _ => .error .ServiceUnavailable

/-- A router service that classifies every input as `light_config` with
confidence 1/2 (below the 0.7 threshold). -/
def lowRouteSvc : Routing.RouterService where
  parseRoute := fun _ => .ok ⟨.light_config, 1/2, "change bedroom light"⟩
  parseLight := fun _ => .error .ServiceUnavailable
  parseDoor := fun _ => .error .ServiceUnavailable
  parseEnt := fun _ => .error .ServiceUnavailable

/-- A router service whose light-handler extraction succeeds with a fixed
`LightConfigDetails` value. -/
def lightSvc : Routing.RouterService where
  parseRoute := fun _ => .ok ⟨.light_config, 9/10, "Change bedroom light to cool"⟩
  parseLight := fun _ => .ok ⟨"bedroom", .cool⟩
  parseDoor := fun _ => .ok ⟨"front door", .lock⟩
  parseEnt := fun _ => .ok ⟨.play, some "jazz"⟩

/-- A parallel-validation service realizing the spec's Scenario 5: the
assistant-request check response says it is a valid request with
confidence 9/10, while the security check response says the input is
unsafe and reports a risk flag. -/
def scenarioFiveSvc : Parallelization.ParallelService where
  assistantCheck := fun _ => .ok ⟨⟨true, 9/10⟩⟩
  securityCheck := fun _ => .ok ⟨⟨false, ["prompt injection attempt"]⟩⟩

/-! Concrete rational facts about the hardcoded threshold, shared by the
witnesses below. -/

theorem half_lt_threshold : (1 : ℚ)/2 < threshold := by
  norm_num [threshold]

theorem threshold_le_three_halves : threshold ≤ (3 : ℚ)/2 := by
  norm_num [threshold]

theorem mismatch_gate_ok :
    Chaining1.gate_rejects ⟨"VALIDATION OUTPUT", true, 9/10⟩ = false := by
  norm_num [Chaining1.gate_rejects, threshold]

/-! Claim theorems. -/

/-- C1 counterexample: the parallel-validation gate of
4-parallelization.py (lines 104-108) uses a strict comparison, so with
both boolean flags true and the confidence score exactly equal to the
threshold it does NOT pass, contradicting the claim that every gate in
scope passes in that situation. -/
theorem parallel_gate_fails_at_threshold :
    Parallelization.is_valid ⟨true, threshold⟩ ⟨true, []⟩ = false := by
  simp [Parallelization.is_valid]

/-- C1 (amended): the two chain gates and the router gate pass iff all
their boolean flags are true and the score is ≥ the 0.7 threshold — in
particular they pass at score = threshold and fail any amount below it —
while the parallel-validation gate combines its flags with AND but
compares the score STRICTLY (score > threshold), so it fails at score =
threshold. -/
theorem gate_characterizations :
    (∀ v : Chaining1.EventValidation,
      Chaining1.gate_passes v
        = (v.is_calender_event && decide (threshold ≤ v.confidence_score)))
  ∧ (∀ v : Chaining2.EventValidation,
      Chaining2.gate_passes v
        = (v.is_calendar_event && decide (threshold ≤ v.confidence_score)))
  ∧ (∀ rt : Routing.AssistantRequestType,
      Routing.gate_passes rt = decide (threshold ≤ rt.confidence_score))
  ∧ (∀ (a : Parallelization.AssistantRequestValidation)
        (s : Parallelization.SecurityCheck),
      Parallelization.is_valid a s
        = (a.is_assistant_request && s.is_safe
            && decide (threshold < a.confidence_score)))
  ∧ (∀ d : String, Chaining1.gate_passes ⟨d, true, threshold⟩ = true)
  ∧ (∀ (d : String) (q : ℚ), q < threshold →
      Chaining1.gate_passes ⟨d, true, q⟩ = false)
  ∧ Parallelization.is_valid ⟨true, threshold⟩ ⟨true, []⟩ = false := by
  refine ⟨?_, ?_, ?_, ?_, ?_, ?_, ?_⟩
  · intro v
    cases hb : v.is_calender_event <;>
      simp [Chaining1.gate_passes, Chaining1.gate_rejects, hb, ← decide_not, not_lt]
  · intro v
    cases hb : v.is_calendar_event <;>
      simp [Chaining2.gate_passes, Chaining2.gate_rejects, hb, ← decide_not, not_lt]
  · intro rt
    simp [Routing.gate_passes, Routing.confidence_too_low, ← decide_not, not_lt]
  · intro a s
    cases ha : a.is_assistant_request <;> cases hs : s.is_safe <;>
      simp [Parallelization.is_valid, ha, hs, gt_iff_lt]
  · intro d
    simp [Chaining1.gate_passes, Chaining1.gate_rejects]
  · intro d q h
    simp [Chaining1.gate_passes, Chaining1.gate_rejects, h]
  · simp [Parallelization.is_valid]

/-- C1 witness: instantiating the hypothesis-bearing conjunct at the
concrete score 1/2, which is below the threshold. -/
theorem gate_characterizations_witness :
    (1 : ℚ)/2 < threshold
  ∧ Chaining1.gate_passes ⟨"hello", true, 1/2⟩ = false :=
  ⟨half_lt_threshold,
    gate_characterizations.2.2.2.2.2.1 "hello" (1/2) half_lt_threshold⟩

/-- C2 counterexample: in 1-prompt-chaining.py the extraction stage is
called with the raw user input (line 147 passes `user_input`), not with
the validation stage's output: with a service whose validation response
carries the description "VALIDATION OUTPUT", the chain on input
"RAW INPUT" issues its extracting call with argument "RAW INPUT", which
differs from the validation output. -/
theorem extraction_consumes_raw_input :
    Chaining1.validate_event mismatchSvc "RAW INPUT"
      = .ok ⟨"VALIDATION OUTPUT", true, 9/10⟩
  ∧ Chaining1.proces_calender_request mismatchSvc "RAW INPUT"
      = (.ok (some ⟨"Your event is booked"⟩),
         [.validating "RAW INPUT", .extracting "RAW INPUT",
          .confirming sampleDetails])
  ∧ ("RAW INPUT" : String) ≠ "VALIDATION OUTPUT" := by
  refine ⟨rfl, ?_, by decide⟩
  have hval : Chaining1.validate_event mismatchSvc "RAW INPUT"
      = .ok ⟨"VALIDATION OUTPUT", true, 9/10⟩ := rfl
  have hext : Chaining1.extract_event_details mismatchSvc "RAW INPUT"
      = .ok sampleDetails := rfl
  have hconf : Chaining1.generate_confirmation mismatchSvc sampleDetails
      = .ok ⟨"Your event is booked"⟩ := rfl
  simp [Chaining1.proces_calender_request, hval, mismatch_gate_ok, hext, hconf]

/-- C2 (amended): in both gated chains, when the validation gate passes,
the extraction stage consumes the ORIGINAL user input (not the validation
stage's output), the confirmation stage consumes the extraction stage's
output, and the chain returns the confirmation stage's output. -/
theorem chain_dataflow :
    (∀ (svc : Chaining1.ChainService) (input : String)
        (v : Chaining1.EventValidation) (d : Chaining1.EventDetails)
        (c : Chaining1.EventConfirmation),
      Chaining1.validate_event svc input = .ok v →
      Chaining1.gate_rejects v = false →
      Chaining1.extract_event_details svc input = .ok d →
      Chaining1.generate_confirmation svc d = .ok c →
      Chaining1.proces_calender_request svc input
        = (.ok (some c), [.validating input, .extracting input, .confirming d]))
  ∧ (∀ (svc : Chaining2.ChainService) (input : String)
        (v : Chaining2.EventValidation) (d : Chaining2.EventDetails)
        (c : Chaining2.EventConfirmation),
      Chaining2.validate_event svc input = .ok v →
      Chaining2.gate_rejects v = false →
      Chaining2.extract_event svc input = .ok d →
      Chaining2.generate_confirmation svc d = .ok c →
      Chaining2.process_calendar_request svc input
        = (.ok (some c), [.validating input, .extracting input, .confirming d])) := by
  constructor
  · intro svc input v d c hval hgate hext hconf
    simp [Chaining1.proces_calender_request, hval, hgate, hext, hconf]
  · intro svc input v d c hval hgate hext hconf
    simp [Chaining2.process_calendar_request, hval, hgate, hext, hconf]

/-- C2 witness: the amended data-flow fact instantiated on the concrete
service `mismatchSvc` and input "RAW INPUT". -/
theorem chain_dataflow_witness :
    Chaining1.proces_calender_request mismatchSvc "RAW INPUT"
      = (.ok (some ⟨"Your event is booked"⟩),
         [.validating "RAW INPUT", .extracting "RAW INPUT",
          .confirming sampleDetails]) :=
  chain_dataflow.1 mismatchSvc "RAW INPUT" ⟨"VALIDATION OUTPUT", true, 9/10⟩
    sampleDetails ⟨"Your event is booked"⟩ rfl mismatch_gate_ok rfl rfl

/-- C3: in both gated chains, whenever the validation stage returns a
result the gate rejects (flag false or score below threshold), the
orchestrator issues no extracting and no confirming inference call and
returns the empty (None) outcome: rejection is terminal. -/
theorem chain_short_circuit :
    (∀ (svc : Chaining1.ChainService) (input : String)
        (v : Chaining1.EventValidation),
      Chaining1.validate_event svc input = .ok v →
      Chaining1.gate_rejects v = true →
      Chaining1.proces_calender_request svc input
        = (.ok none, [.validating input]))
  ∧ (∀ (svc : Chaining2.ChainService) (input : String)
        (v : Chaining2.EventValidation),
      Chaining2.validate_event svc input = .ok v →
      Chaining2.gate_rejects v = true →
      Chaining2.process_calendar_request svc input
        = (.ok none, [.validating input])) := by
  constructor
  · intro svc input v hval hgate
    simp [Chaining1.proces_calender_request, hval, hgate]
  · intro svc input v hval hgate
    simp [Chaining2.process_calendar_request, hval, hgate]

/-- C3 witness: short-circuiting on the service whose validation stage
reports the input is not a calendar event, for both chains. -/
theorem chain_short_circuit_witness :
    Chaining1.proces_calender_request notEventSvc "Generate a poem about roses"
      = (.ok none, [.validating "Generate a poem about roses"])
  ∧ Chaining2.process_calendar_request notEventSvc2 "Generate a poem about roses"
      = (.ok none, [.validating "Generate a poem about roses"]) :=
  ⟨chain_short_circuit.1 notEventSvc "Generate a poem about roses"
      ⟨"poem request", false, 9/10⟩ rfl (by simp [Chaining1.gate_rejects]),
   chain_short_circuit.2 notEventSvc2 "Generate a poem about roses"
      ⟨false, 9/10⟩ rfl (by simp [Chaining2.gate_rejects])⟩

/-- C4 counterexample: on a classification into the fallback category
"other" with confidence 9/10, `process_assistant_request` (3-routing.py
lines 214-216) invokes no handler and returns `None` — not an
`AssistantResponse` reporting "unsupported request type" — and the code
contains no `UnroutableRequest` error at all. -/
theorem other_category_returns_none :
    Routing.process_assistant_request otherSvc "tell me a joke"
      = (.ok none, []) := by
  have hroute : Routing.route_agent_request otherSvc "tell me a joke"
      = .ok ⟨.other, 9/10, "do something odd"⟩ := rfl
  have hconf : Routing.confidence_too_low ⟨.other, 9/10, "do something odd"⟩
      = false := by
    norm_num [Routing.confidence_too_low, threshold]
  simp [Routing.process_assistant_request, hroute, hconf]

/-- C4 (amended): for every classification into the fallback category
"other" that passes the confidence gate, the router invokes no
per-category handler, raises no error, and returns the empty (None)
outcome — the same return value as a low-confidence rejection; the
category enumeration is closed, so no distinct `UnroutableRequest` path
exists. -/
theorem other_category_no_handler :
    ∀ (svc : Routing.RouterService) (input : String)
      (rt : Routing.AssistantRequestType),
      Routing.route_agent_request svc input = .ok rt →
      Routing.confidence_too_low rt = false →
      rt.request_type = .other →
      Routing.process_assistant_request svc input = (.ok none, []) := by
  intro svc input rt hroute hconf hother
  simp [Routing.process_assistant_request, hroute, hconf, hother]

/-- C4 witness: the amended fact instantiated on the concrete service
that classifies everything as "other" with confidence 9/10. -/
theorem other_category_no_handler_witness :
    Routing.process_assistant_request otherSvc "play some jazz"
      = (.ok none, []) :=
  other_category_no_handler otherSvc "play some jazz"
    ⟨.other, 9/10, "do something odd"⟩ rfl
    (by norm_num [Routing.confidence_too_low, threshold]) rfl

/-- C5: whenever the classification result's confidence score is below
the 0.7 threshold, the router returns the rejected (None) outcome and
invokes no per-category handler, regardless of the returned category. -/
theorem low_confidence_rejects_without_dispatch :
    ∀ (svc : Routing.RouterService) (input : String)
      (rt : Routing.AssistantRequestType),
      Routing.route_agent_request svc input = .ok rt →
      rt.confidence_score < threshold →
      Routing.process_assistant_request svc input = (.ok none, []) := by
  intro svc input rt hroute hlow
  have hconf : Routing.confidence_too_low rt = true := by
    simpa [Routing.confidence_too_low] using hlow
  simp [Routing.process_assistant_request, hroute, hconf]

/-- C5 witness: on the service classifying inputs as `light_config` with
confidence 1/2 < 0.7, the router rejects without invoking the light
handler. -/
theorem low_confidence_rejects_without_dispatch_witness :
    (1 : ℚ)/2 < threshold
  ∧ Routing.process_assistant_request lowRouteSvc "Change bedroom light to cool"
      = (.ok none, []) :=
  ⟨half_lt_threshold,
   low_confidence_rejects_without_dispatch lowRouteSvc
     "Change bedroom light to cool"
     ⟨.light_config, 1/2, "change bedroom light"⟩ rfl half_lt_threshold⟩

/-- C6 counterexample: pydantic validation of `EventValidation`
(1-prompt-chaining.py lines 17-25) declares `confidence_score` as a plain
float — the range "between 0 and 1" lives only in the field description —
so a response carrying the out-of-range score 3/2 validates successfully
instead of failing, and the gate then compares that out-of-range score to
the threshold and passes. -/
theorem out_of_range_confidence_accepted :
    Chaining1.EventValidation.model_validate_json
        (validationJson "meeting" true (3/2))
      = .ok ⟨"meeting", true, 3/2⟩
  ∧ (1 : ℚ) < 3/2
  ∧ Chaining1.gate_passes ⟨"meeting", true, 3/2⟩ = true := by
  refine ⟨rfl, by norm_num, ?_⟩
  norm_num [Chaining1.gate_passes, Chaining1.gate_rejects, threshold]

/-- C6 (amended): schema validation of the structured results checks
field presence, field types and enum membership (a `request_type` outside
the four literals is a SchemaViolation), but declares NO range constraint
on `confidence_score`: every rational score — including values outside
[0, 1] — validates successfully, and the gate compares the accepted score
directly to the threshold. -/
theorem confidence_score_not_range_checked :
    (∀ (d : String) (b : Bool) (q : ℚ),
      Chaining1.EventValidation.model_validate_json (validationJson d b q)
        = .ok ⟨d, b, q⟩)
  ∧ (∀ (q : ℚ) (d : String),
      Routing.AssistantRequestType.model_validate_json
          (.obj [("request_type", .str "light_config"),
            ("confidence_score", .num q), ("description", .str d)])
        = .ok ⟨.light_config, q, d⟩)
  ∧ (∀ (q : ℚ) (d : String),
      Routing.AssistantRequestType.model_validate_json
          (.obj [("request_type", .str "open_window"),
            ("confidence_score", .num q), ("description", .str d)])
        = .error .SchemaViolation)
  ∧ (∀ (d : String) (q : ℚ), threshold ≤ q →
      Chaining1.gate_passes ⟨d, true, q⟩ = true) := by
  refine ⟨?_, ?_, ?_, ?_⟩
  · intro d b q
    rfl
  · intro q d
    rfl
  · intro q d
    rfl
  · intro d q h
    simp [Chaining1.gate_passes, Chaining1.gate_rejects, not_lt.mpr h]

/-- C6 witness: the hypothesis-bearing conjunct instantiated at the
out-of-range score 3/2 ≥ threshold. -/
theorem confidence_score_not_range_checked_witness :
    threshold ≤ (3 : ℚ)/2
  ∧ Chaining1.gate_passes ⟨"meeting", true, 3/2⟩ = true :=
  ⟨threshold_le_three_halves,
   confidence_score_not_range_checked.2.2.2 "meeting" (3/2)
     threshold_le_three_halves⟩

/-- C7: in both gated chains, a failure (SchemaViolation,
ServiceUnavailable, …) of any stage's structured inference call aborts
the whole chain at that stage: the error is returned to the caller
unchanged, no later stage is called, no stage is retried, and no partial
result is produced. -/
theorem chain_error_propagation :
    (∀ (svc : Chaining1.ChainService) (input : String) (e : PyError),
      Chaining1.validate_event svc input = .error e →
      Chaining1.proces_calender_request svc input
        = (.error e, [.validating input]))
  ∧ (∀ (svc : Chaining1.ChainService) (input : String)
        (v : Chaining1.EventValidation) (e : PyError),
      Chaining1.validate_event svc input = .ok v →
      Chaining1.gate_rejects v = false →
      Chaining1.extract_event_details svc input = .error e →
      Chaining1.proces_calender_request svc input
        = (.error e, [.validating input, .extracting input]))
  ∧ (∀ (svc : Chaining1.ChainService) (input : String)
        (v : Chaining1.EventValidation) (d : Chaining1.EventDetails) (e : PyError),
      Chaining1.validate_event svc input = .ok v →
      Chaining1.gate_rejects v = false →
      Chaining1.extract_event_details svc input = .ok d →
      Chaining1.generate_confirmation svc d = .error e →
      Chaining1.proces_calender_request svc input
        = (.error e, [.validating input, .extracting input, .confirming d]))
  ∧ (∀ (svc : Chaining2.ChainService) (input : String) (e : PyError),
      Chaining2.validate_event svc input = .error e →
      Chaining2.process_calendar_request svc input
        = (.error e, [.validating input]))
  ∧ (∀ (svc : Chaining2.ChainService) (input : String)
        (v : Chaining2.EventValidation) (e : PyError),
      Chaining2.validate_event svc input = .ok v →
      Chaining2.gate_rejects v = false →
      Chaining2.extract_event svc input = .error e →
      Chaining2.process_calendar_request svc input
        = (.error e, [.validating input, .extracting input]))
  ∧ (∀ (svc : Chaining2.ChainService) (input : String)
        (v : Chaining2.EventValidation) (d : Chaining2.EventDetails) (e : PyError),
      Chaining2.validate_event svc input = .ok v →
      Chaining2.gate_rejects v = false →
      Chaining2.extract_event svc input = .ok d →
      Chaining2.generate_confirmation svc d = .error e →
      Chaining2.process_calendar_request svc input
        = (.error e, [.validating input, .extracting input, .confirming d])) := by
  refine ⟨?_, ?_, ?_, ?_, ?_, ?_⟩
  · intro svc input e hval
    simp [Chaining1.proces_calender_request, hval]
  · intro svc input v e hval hgate hext
    simp [Chaining1.proces_calender_request, hval, hgate, hext]
  · intro svc input v d e hval hgate hext hconf
    simp [Chaining1.proces_calender_request, hval, hgate, hext, hconf]
  · intro svc input e hval
    simp [Chaining2.process_calendar_request, hval]
  · intro svc input v e hval hgate hext
    simp [Chaining2.process_calendar_request, hval, hgate, hext]
  · intro svc input v d e hval hgate hext hconf
    simp [Chaining2.process_calendar_request, hval, hgate, hext, hconf]

/-- C7 witness: on the service whose validation call fails with
`ServiceUnavailable`, the chain surfaces exactly that error after the
single validating call. -/
theorem chain_error_propagation_witness :
    Chaining1.proces_calender_request failingChainSvc "schedule a meeting"
      = (.error .ServiceUnavailable, [.validating "schedule a meeting"]) :=
  chain_error_propagation.1 failingChainSvc "schedule a meeting"
    .ServiceUnavailable rfl

/-- C8: each per-category handler, after a successful structured
inference call against its own internal schema, returns a value of the
uniform `AssistantResponse` shape — status "success" plus a message built
from the extracted details — and the router passes exactly that response
through to its caller; no internal schema value (`LightConfigDetails`,
`DoorConfigDetails`, `EntertainmentConfigDetails`) is returned. -/
theorem handlers_return_uniform_response :
    (∀ (svc : Routing.RouterService) (desc : String)
        (d : Routing.LightConfigDetails),
      svc.parseLight desc = .ok d →
      Routing.handle_light_config svc desc
        = .ok ⟨"success", Routing.lightMessage d⟩)
  ∧ (∀ (svc : Routing.RouterService) (desc : String)
        (d : Routing.DoorConfigDetails),
      svc.parseDoor desc = .ok d →
      Routing.handle_door_config svc desc
        = .ok ⟨"success", Routing.doorMessage d⟩)
  ∧ (∀ (svc : Routing.RouterService) (desc : String)
        (d : Routing.EntertainmentConfigDetails),
      svc.parseEnt desc = .ok d →
      Routing.handle_entertainment_config svc desc
        = .ok ⟨"success", Routing.entMessage d⟩)
  ∧ (∀ (svc : Routing.RouterService) (input : String)
        (rt : Routing.AssistantRequestType) (r : Routing.AssistantResponse),
      Routing.route_agent_request svc input = .ok rt →
      Routing.confidence_too_low rt = false →
      rt.request_type = .light_config →
      Routing.handle_light_config svc rt.description = .ok r →
      Routing.process_assistant_request svc input
        = (.ok (some r), [.light rt.description]))
  ∧ (∀ (svc : Routing.RouterService) (input : String)
        (rt : Routing.AssistantRequestType) (r : Routing.AssistantResponse),
      Routing.route_agent_request svc input = .ok rt →
      Routing.confidence_too_low rt = false →
      rt.request_type = .door_config →
      Routing.handle_door_config svc rt.description = .ok r →
      Routing.process_assistant_request svc input
        = (.ok (some r), [.door rt.description]))
  ∧ (∀ (svc : Routing.RouterService) (input : String)
        (rt : Routing.AssistantRequestType) (r : Routing.AssistantResponse),
      Routing.route_agent_request svc input = .ok rt →
      Routing.confidence_too_low rt = false →
      rt.request_type = .entertainment_config →
      Routing.handle_entertainment_config svc rt.description = .ok r →
      Routing.process_assistant_request svc input
        = (.ok (some r), [.entertainment rt.description])) := by
  refine ⟨?_, ?_, ?_, ?_, ?_, ?_⟩
  · intro svc desc d h
    simp [Routing.handle_light_config, h]
  · intro svc desc d h
    simp [Routing.handle_door_config, h]
  · intro svc desc d h
    simp [Routing.handle_entertainment_config, h]
  · intro svc input rt r hroute hconf hty hh
    simp [Routing.process_assistant_request, hroute, hconf, hty, hh]
  · intro svc input rt r hroute hconf hty hh
    simp [Routing.process_assistant_request, hroute, hconf, hty, hh]
  · intro svc input rt r hroute hconf hty hh
    simp [Routing.process_assistant_request, hroute, hconf, hty, hh]

/-- C8 witness: the light handler on the concrete service returns the
uniform response with status "success" and the message built from the
extracted place and light type. -/
theorem handlers_return_uniform_response_witness :
    Routing.handle_light_config lightSvc "Change bedroom light to cool"
      = .ok ⟨"success", "Light configuration change on bedroom to cool"⟩ :=
  handlers_return_uniform_response.1 lightSvc "Change bedroom light to cool"
    ⟨"bedroom", .cool⟩ rfl

/-- C9 (code evaluated at the failing input): realizing the spec's
Scenario 5 — the assistant-request check's response says valid request
with confidence 9/10 while the security check's response says
`is_safe=false` with a risk flag — `validate_request` does NOT return the
combined value `false`: line 71 of 4-parallelization.py reads the
misspelt attribute `parserd` off the parsed message, so an
AttributeError propagates out of `asyncio.gather` instead.  The combining
expression of lines 104-108 itself, applied to the two parsed results,
would indeed be false. -/
theorem parallel_scenario_raises_attribute_error :
    Parallelization.validate_request scenarioFiveSvc "unlock the front door"
      = .error (.attributeError "parserd")
  ∧ Parallelization.is_valid ⟨true, 9/10⟩ ⟨false, ["prompt injection attempt"]⟩
      = false := by
  constructor
  · rfl
  · simp [Parallelization.is_valid]

/-- C10: `validate_assistant_request` returns
`response.choices[0].message.parserd` (4-parallelization.py line 71), an
attribute that does not exist on the parsed message, so it raises
AttributeError on every successful service response; consequently
`validate_request` never returns true for any service behaviour and any
input. -/
theorem validate_assistant_request_always_raises :
    (∀ (svc : Parallelization.ParallelService) (input : String)
        (msg : Parallelization.ParsedMessage
          Parallelization.AssistantRequestValidation),
      svc.assistantCheck input = .ok msg →
      Parallelization.validate_assistant_request svc input
        = .error (.attributeError "parserd"))
  ∧ (∀ (svc : Parallelization.ParallelService) (input : String),
      Parallelization.validate_request svc input ≠ .ok true) := by
  constructor
  · intro svc input msg h
    simp [Parallelization.validate_assistant_request, h,
      Parallelization.ParsedMessage.getattr]
  · intro svc input hcontra
    rcases hA : svc.assistantCheck input with e | msg
    · have h1 : Parallelization.validate_assistant_request svc input = .error e := by
        simp [Parallelization.validate_assistant_request, hA]
      simp [Parallelization.validate_request, Parallelization.gatherPair,
        h1] at hcontra
    · have h1 : Parallelization.validate_assistant_request svc input
          = .error (.attributeError "parserd") := by
        simp [Parallelization.validate_assistant_request, hA,
          Parallelization.ParsedMessage.getattr]
      simp [Parallelization.validate_request, Parallelization.gatherPair,
        h1] at hcontra

/-- C10 witness: on the concrete Scenario-5 service, whose
assistant-check call succeeds, `validate_assistant_request` raises the
AttributeError for "parserd". -/
theorem validate_assistant_request_always_raises_witness :
    scenarioFiveSvc.assistantCheck "turn on the lights" = .ok ⟨⟨true, 9/10⟩⟩
  ∧ Parallelization.validate_assistant_request scenarioFiveSvc
      "turn on the lights" = .error (.attributeError "parserd") :=
  ⟨rfl,
   validate_assistant_request_always_raises.1 scenarioFiveSvc
     "turn on the lights" ⟨⟨true, 9/10⟩⟩ rfl⟩

end AgenticWorkflows
